import Mathlib

/-
Verification of the bounded mpsc channel in src/embassy/src/util/mpsc.rs.

Shallow embedding notes.  The channel state is `ChannelState` (mirroring the
Rust struct of the same name, lines 431-442); items are modelled as `Nat`,
buffer slots as `Option Nat` (`none` stands for an uninitialized
`MaybeUninit` slot), wakers as `Nat` identities (`Waker.will_wake` compares
identities).

Every method of `Channel` (lines 536-679) acquires the mutex and runs a
closure whose first statement is
    let mut state = unsafe { state.get().read() };
`state.get()` is a raw pointer into the `UnsafeCell` and `.read()` is a
by-value bitwise copy; the shadowing `let mut state` makes every subsequent
field assignment apply to that local copy, and no method ever writes the
copy back into the cell.  The copy is therefore dropped when the closure
returns and the shared state is left exactly as it was.  We embed this by
giving, for each method, a `...Body` function computing the mutated local
copy together with the return value (a faithful translation of the closure
text), and a top-level operation that returns the result of the body while
keeping the input state as the shared state after the call, exactly as the
source does.  Waker invocations and assertion checks read the copy at the
moment it is taken, when it is still bit-for-bit equal to the shared state,
so they are computed from the input state.
-/

namespace Mpsc

/-- Mirror of `ChannelState<T, N>` (mpsc.rs lines 431-442) with `T = Nat`;
the capacity `N` is the length of `buf`; a `none` slot is uninitialized. -/
structure ChannelState where
  buf : List (Option Nat)
  read_pos : Nat
  write_pos : Nat
  full : Bool
  closing : Bool
  closed : Bool
  receiver_registered : Bool
  senders_registered : Nat
  receiver_waker : Option Nat
  senders_waker : Option Nat
deriving Repr, DecidableEq

/-- Mirror of `ChannelState::new` (lines 447-470): `n` uninitialized slots,
cursors at zero, all flags cleared, no registrations, no wakers. -/
def ChannelState.new (n : Nat) : ChannelState where
  buf := List.replicate n none
  read_pos := 0
  write_pos := 0
  full := false
  closing := false
  closed := false
  receiver_registered := false
  senders_registered := 0
  receiver_waker := none
  senders_waker := none

/-- Mirror of `TryRecvError` (lines 387-393). -/
inductive TryRecvError where
  | Empty
  | Closed
deriving Repr, DecidableEq

/-- Mirror of `TrySendError<T>` (lines 408-416) with `T = Nat`. -/
inductive TrySendError where
  | Full (m : Nat)
  | Closed (m : Nat)
deriving Repr, DecidableEq

/-- Return value of one channel operation. -/
inductive RetVal where
  | unit
  | bool (b : Bool)
  | recvOk (m : Option Nat)
  | recvErr (e : TryRecvError)
  | sendOk
  | sendErr (e : TrySendError)
deriving Repr, DecidableEq

/-- Externally observable outcome of one channel operation: the shared state
reachable through the mutex after the call, the return value, the identities
of the wakers invoked during the call, and whether an `assert!` failed. -/
structure StepResult where
  state : ChannelState
  ret : RetVal
  wakes : List Nat
  panics : Bool
deriving Repr, DecidableEq

/-- The closure body of `Channel::try_recv` (lines 537-559), acting on the
local copy of the state: if not closed and the buffer is non-empty
(cursors differ, or full), clear `full` (the `wake_senders` call at line 543
is commented out in the source), read `buf[read_pos]` (a `none` result
models the source reading an uninitialized slot), advance `read_pos` modulo
the buffer length, and return the message; if empty and not closing, fail
`Empty`; if empty and closing, set `closed` and fail `Closed`; if already
closed, fail `Closed`.  Returns the final local copy and the return value. -/
def tryRecvBody (s : ChannelState) : ChannelState × RetVal :=
  if !s.closed then
    if s.read_pos != s.write_pos || s.full then
      let s1 := if s.full then { s with full := false } else s
      let message := s1.buf.getD s1.read_pos none
      let s2 := { s1 with read_pos := (s1.read_pos + 1) % s1.buf.length }
      (s2, .recvOk message)
    else if !s.closing then
      (s, .recvErr .Empty)
    else
      ({ s with closed := true }, .recvErr .Closed)
  else
    (s, .recvErr .Closed)

/-- The closure body of `Channel::try_send` (lines 563-580), acting on the
local copy: if not closed and not full, write the message into
`buf[write_pos]`, advance `write_pos` modulo the buffer length, set `full`
when the advanced `write_pos` equals `read_pos` (the `wake_receiver` call at
line 572 is commented out in the source), and return success; if full, fail
`Full(message)`; if closed, fail `Closed(message)`. -/
def trySendBody (s : ChannelState) (message : Nat) : ChannelState × RetVal :=
  if !s.closed then
    if !s.full then
      let s1 := { s with buf := s.buf.set s.write_pos (some message) }
      let s2 := { s1 with write_pos := (s1.write_pos + 1) % s1.buf.length }
      let s3 := if s2.write_pos == s2.read_pos then { s2 with full := true } else s2
      (s3, .sendOk)
    else
      (s, .sendErr (.Full message))
  else
    (s, .sendErr (.Closed message))

/-- The closure body of `Channel::close` (lines 585-588): set `closing` on
the local copy. -/
def closeBody (s : ChannelState) : ChannelState :=
  { s with closing := true }

/-- The closure body of `Channel::deregister_receiver` (lines 607-614): if a
receiver is registered, set `closed` on the local copy (the `wake_senders`
call at line 611 is commented out in the source); clear
`receiver_registered` on the copy. -/
def deregisterReceiverBody (s : ChannelState) : ChannelState :=
  let s1 := if s.receiver_registered then { s with closed := true } else s
  { s1 with receiver_registered := false }

/-- The closure body of `Channel::register_sender` (lines 618-621):
increment `senders_registered` on the local copy (a `u32` in the source,
hence the reduction modulo 2^32). -/
def registerSenderBody (s : ChannelState) : ChannelState :=
  { s with senders_registered := (s.senders_registered + 1) % 4294967296 }

/-- The closure body of `Channel::deregister_sender` (lines 625-632):
decrement `senders_registered` on the local copy; the `state.close()` call
in the zero branch (line 630) is commented out in the source, so reaching
zero does not set `closing` even on the copy. -/
def deregisterSenderBody (s : ChannelState) : ChannelState :=
  { s with senders_registered := s.senders_registered - 1 }

/-- Mirror of `Channel::try_recv` (lines 536-560): runs `tryRecvBody` on the
local copy obtained by `state.get().read()` and returns its result; the
mutated copy is dropped when the closure returns (no write-back exists in
the source), so the shared state after the call is the input state.  No
waker is invoked (both `wake_senders` call sites inside are commented out). -/
def try_recv (s : ChannelState) : StepResult :=
  { state := s, ret := (tryRecvBody s).2, wakes := [], panics := false }

/-- Mirror of `Channel::try_send` (lines 562-581): runs `trySendBody` on the
local copy and returns its result; the mutated copy is dropped (no
write-back in the source), and the `wake_receiver` call is commented out. -/
def try_send (s : ChannelState) (message : Nat) : StepResult :=
  { state := s, ret := (trySendBody s message).2, wakes := [], panics := false }

/-- Mirror of `Channel::wake_receiver` (lines 642-649): reads the state and
wakes the registered receiver waker when present; no field is assigned. -/
def wake_receiver (s : ChannelState) : StepResult :=
  { state := s, ret := .unit, wakes := s.receiver_waker.toList, panics := false }

/-- Mirror of `Channel::close` (lines 583-589): first calls `wake_receiver`,
then runs `closeBody` on the local copy inside a second lock section; the
copy is dropped (no write-back in the source). -/
def close (s : ChannelState) : StepResult :=
  { state := s, ret := .unit, wakes := (wake_receiver s).wakes, panics := false }

/-- Mirror of `Channel::is_closed` (lines 591-596): returns
`closing || closed` read from the state; no field is assigned. -/
def is_closed (s : ChannelState) : StepResult :=
  { state := s, ret := .bool (s.closing || s.closed), wakes := [], panics := false }

/-- Mirror of `Channel::register_receiver` (lines 598-604):
`assert!(!state.receiver_registered)` fails exactly when a receiver is
registered in the copy just read (equal to the shared state); the
`receiver_registered := true` assignment applies to the dropped copy. -/
def register_receiver (s : ChannelState) : StepResult :=
  { state := s, ret := .unit, wakes := [], panics := s.receiver_registered }

/-- Mirror of `Channel::deregister_receiver` (lines 606-615): runs
`deregisterReceiverBody` on the local copy, which is dropped; the
`wake_senders` call site is commented out, so no waker is invoked. -/
def deregister_receiver (s : ChannelState) : StepResult :=
  { state := s, ret := .unit, wakes := [], panics := false }

/-- Mirror of `Channel::register_sender` (lines 617-622): runs
`registerSenderBody` on the local copy, which is dropped. -/
def register_sender (s : ChannelState) : StepResult :=
  { state := s, ret := .unit, wakes := [], panics := false }

/-- Mirror of `Channel::deregister_sender` (lines 624-633):
`assert!(state.senders_registered > 0)` fails exactly when the count in the
copy just read is zero; the decrement applies to the dropped copy and the
close-on-zero is commented out. -/
def deregister_sender (s : ChannelState) : StepResult :=
  { state := s, ret := .unit, wakes := [],
    panics := decide (s.senders_registered = 0) }

/-- Mirror of `Channel::set_receiver_waker` (lines 635-640): the
`receiver_waker := some w` assignment applies to the dropped copy. -/
def set_receiver_waker (s : ChannelState) (w : Nat) : StepResult :=
  { state := s, ret := .unit, wakes := [], panics := false }

/-- Mirror of `Channel::set_senders_waker` (lines 651-669): when a waker
already occupies the producer slot and the new waker would not wake it
(`will_wake` is identity comparison), the occupant is woken; the
`senders_waker := some w` assignment applies to the dropped copy. -/
def set_senders_waker (s : ChannelState) (w : Nat) : StepResult :=
  { state := s, ret := .unit,
    wakes := match s.senders_waker with
      | some old => if old ≠ w then [old] else []
      | none => [],
    panics := false }

/-- One operation of the `Channel` interface (the methods of
`impl Channel`, lines 536-679, reachable from the `Sender` and `Receiver`
handles). -/
inductive ChanOp where
  | trySend (m : Nat)
  | tryRecv
  | close
  | isClosed
  | registerReceiver
  | deregisterReceiver
  | registerSender
  | deregisterSender
  | setReceiverWaker (w : Nat)
  | setSendersWaker (w : Nat)
deriving Repr, DecidableEq

/-- Dispatch one interface operation on a channel state. -/
def step (op : ChanOp) (s : ChannelState) : StepResult :=
  match op with
  | .trySend m => try_send s m
  | .tryRecv => try_recv s
  | .close => close s
  | .isClosed => is_closed s
  | .registerReceiver => register_receiver s
  | .deregisterReceiver => deregister_receiver s
  | .registerSender => register_sender s
  | .deregisterSender => deregister_sender s
  | .setReceiverWaker w => set_receiver_waker s w
  | .setSendersWaker w => set_senders_waker s w

/-- Run a sequence of interface operations, threading the shared state. -/
def run (ops : List ChanOp) (s : ChannelState) : ChannelState :=
  match ops with
  | [] => s
  | op :: rest => run rest (step op s).state

/-- Helper: every operation leaves the shared state unchanged (the source
closures mutate only the dropped local copy). -/
theorem stepPreservesState (op : ChanOp) (s : ChannelState) : (step op s).state = s := by
  cases op <;> rfl

/-- Helper: running any operation sequence leaves the shared state
unchanged. -/
theorem run_state_id (ops : List ChanOp) (s : ChannelState) : run ops s = s := by
  induction ops generalizing s with
  | nil => rfl
  | cons op rest ih => rw [run, stepPreservesState, ih]

/-- Number of items currently held in the ring buffer, as determined by the
cursors and the `full` flag. -/
def itemsHeld (s : ChannelState) : Nat :=
  if s.full then s.buf.length
  else (s.buf.length + s.write_pos - s.read_pos) % s.buf.length

/-- True for the operations a `try_send` and `try_recv` sequence consists of. -/
def isSendRecv : ChanOp → Bool
  | .trySend _ => true
  | .tryRecv => true
  | _ => false

end Mpsc

namespace Mpsc

/-- C3: every interface operation that acquires the mutex (try_send,
try_recv, close, is_closed, register_receiver, deregister_receiver,
register_sender, deregister_sender, set_receiver_waker, set_senders_waker)
leaves the shared `ChannelState` behind the mutex bit-for-bit equal to the
state before the call: the lock body reads the state out of the cell into a
local copy, all field assignments apply to that copy, and the copy is
discarded, so the only externally visible effects are the return value, the
waker invocations and any assertion failure recorded in the `StepResult`. -/
theorem ops_preserve_shared_state (op : ChanOp) (s : ChannelState) :
    (step op s).state = s := by
  cases op <;> rfl

/-- C9: once `is_closed` returns true for a channel state, it returns true
after every further sequence of interface operations: no operation ever
clears the `closing` or `closed` flags of the shared state. -/
theorem is_closed_monotonic (s : ChannelState) (ops : List ChanOp)
    (h : (is_closed s).ret = .bool true) :
    (is_closed (run ops s)).ret = .bool true := by
  rw [run_state_id]
  exact h

/-- Witness for C9 at a concrete closed state and a concrete operation
sequence. -/
theorem is_closed_monotonic_witness :
    (is_closed { ChannelState.new 3 with closed := true }).ret = .bool true ∧
    (is_closed (run [.trySend 1, .tryRecv]
      { ChannelState.new 3 with closed := true })).ret = .bool true :=
  ⟨by decide, is_closed_monotonic _ [.trySend 1, .tryRecv] (by decide)⟩

/-- C4: starting from a newly constructed channel of capacity `n > 0`,
after any sequence of `try_send` and `try_recv` operations the number of
items held in the buffer never exceeds `n`, and a `try_send` call fails with
`Full` exactly when `n` items are held at the moment of the call.  (Both
facts hold degenerately: since the source closures mutate only a dropped
local copy, the shared state stays the fresh state, the item count stays 0,
and `Full` is never returned.) -/
theorem capacity_invariant (n : Nat) (hn : 0 < n) (ops : List ChanOp)
    (hops : ∀ op ∈ ops, isSendRecv op = true) (m : Nat) :
    itemsHeld (run ops (ChannelState.new n)) ≤ n ∧
    ((step (.trySend m) (run ops (ChannelState.new n))).ret = .sendErr (.Full m) ↔
      itemsHeld (run ops (ChannelState.new n)) = n) := by
  rw [run_state_id]
  have hheld : itemsHeld (ChannelState.new n) = 0 := by
    simp [itemsHeld, ChannelState.new]
  refine ⟨by omega, ?_, ?_⟩
  · intro hfull
    have : (step (.trySend m) (ChannelState.new n)).ret = .sendOk := by
      simp [step, try_send, trySendBody, ChannelState.new]
    rw [this] at hfull
    exact absurd hfull (by simp)
  · intro h0
    omega

/-- Witness for C4 at capacity 3 and the sequence [try_send 1, try_recv]. -/
theorem capacity_invariant_witness :
    0 < 3 ∧
    (∀ op ∈ ([.trySend 1, .tryRecv] : List ChanOp), isSendRecv op = true) ∧
    (itemsHeld (run [.trySend 1, .tryRecv] (ChannelState.new 3)) ≤ 3 ∧
      ((step (.trySend 2) (run [.trySend 1, .tryRecv] (ChannelState.new 3))).ret =
          .sendErr (.Full 2) ↔
        itemsHeld (run [.trySend 1, .tryRecv] (ChannelState.new 3)) = 3)) :=
  ⟨by decide, by decide,
    capacity_invariant 3 (by decide) [.trySend 1, .tryRecv] (by decide) 2⟩

end Mpsc

namespace Mpsc

/-- Concrete input for C1: a fresh capacity-3 channel with a parked
receiver waker (identity 7). -/
def c1state : ChannelState :=
  { ChannelState.new 3 with receiver_waker := some 7 }

/-- C1 fails on the code: on `c1state` (not closed, not full, receiver
waker parked) `try_send 42` returns success, but it wakes no one (the
`wake_receiver` call is commented out) and leaves the shared state
unchanged (the write into the buffer and the cursor advance apply only to
the dropped local copy), so that a following `try_recv` still reports
`Empty` and the item is lost. -/
theorem try_send_discards_write_and_wake :
    (try_send c1state 42).ret = .sendOk ∧
    (try_send c1state 42).wakes = [] ∧
    (try_send c1state 42).state = c1state ∧
    (try_recv (try_send c1state 42).state).ret = .recvErr .Empty := by
  refine ⟨rfl, rfl, rfl, by decide⟩

/-- Concrete input for C2: a capacity-2 channel whose buffer holds items 5
and 6, cursors coinciding with `full` set, and a parked producer waker
(identity 9). -/
def c2state : ChannelState :=
  { buf := [some 5, some 6], read_pos := 0, write_pos := 0, full := true,
    closing := false, closed := false, receiver_registered := true,
    senders_registered := 1, receiver_waker := none, senders_waker := some 9 }

/-- C2 fails on the code: on the full state `c2state`, `try_recv` returns
the item at `buffer[read_pos]` but wakes no producer (the `wake_senders`
call is commented out) and leaves the shared state unchanged (the cursor
advance and the clearing of `full` apply only to the dropped local copy),
so a second `try_recv` returns the very same item again. -/
theorem try_recv_discards_pop_and_wake :
    (try_recv c2state).ret = .recvOk (some 5) ∧
    (try_recv c2state).wakes = [] ∧
    (try_recv c2state).state = c2state ∧
    (try_recv (try_recv c2state).state).ret = .recvOk (some 5) := by
  refine ⟨by decide, rfl, rfl, by decide⟩

/-- C5 fails on the code: from a fresh capacity-3 channel, `try_send 1`
succeeds (the item is accepted), yet the following `try_recv` fails with
`Empty` while the channel is still open — the accepted item is lost, so the
received sequence is not the accepted sequence. -/
theorem fifo_delivery_loses_items :
    (try_send (ChannelState.new 3) 1).ret = .sendOk ∧
    (try_recv ((try_send (ChannelState.new 3) 1).state)).ret = .recvErr .Empty ∧
    (is_closed ((try_send (ChannelState.new 3) 1).state)).ret = .bool false := by
  refine ⟨by decide, by decide, by decide⟩

/-- Concrete input for C6: a capacity-3 channel with a registered receiver
and a parked producer waker (identity 9). -/
def c6state : ChannelState :=
  { ChannelState.new 3 with receiver_registered := true, senders_waker := some 9 }

/-- C6 fails on the code: `deregister_receiver` on `c6state` wakes no
producer (the `wake_senders` call is commented out) and leaves the shared
state unchanged (`closed` is set and `receiver_registered` cleared only on
the dropped local copy), so a subsequent `try_send` still succeeds instead
of failing `Closed`. -/
theorem deregister_receiver_discards_close :
    (deregister_receiver c6state).wakes = [] ∧
    (deregister_receiver c6state).state = c6state ∧
    (try_send ((deregister_receiver c6state).state) 1).ret = .sendOk := by
  refine ⟨rfl, rfl, by decide⟩

/-- Concrete input for C7: a capacity-3 channel with exactly one registered
sender. -/
def c7state : ChannelState :=
  { ChannelState.new 3 with senders_registered := 1 }

/-- C7 fails on the code: `deregister_sender` on `c7state` leaves the
shared count at 1 (the decrement applies only to the dropped local copy),
and even that local copy reaches count 0 with `closing` still false,
because the close-on-zero call in the source is commented out — the
Open-to-Closing transition never happens. -/
theorem deregister_sender_discards_closing :
    (deregister_sender c7state).panics = false ∧
    (deregister_sender c7state).state = c7state ∧
    (deregisterSenderBody c7state).senders_registered = 0 ∧
    (deregisterSenderBody c7state).closing = false := by
  refine ⟨by decide, rfl, by decide, by decide⟩

/-- C8 fails on the code: on a fresh capacity-3 channel the first
`register_receiver` does not abort, but it also fails to set the shared
`receiver_registered` flag (the assignment applies to the dropped local
copy), so a second `register_receiver` — a second `split` — sees the flag
still clear and does not abort either, contrary to the claimed assertion
failure. -/
theorem second_register_receiver_no_abort :
    (register_receiver (ChannelState.new 3)).panics = false ∧
    (register_receiver (ChannelState.new 3)).state.receiver_registered = false ∧
    (register_receiver ((register_receiver (ChannelState.new 3)).state)).panics
      = false := by
  refine ⟨by decide, by decide, by decide⟩

/-- Concrete input for C10: a capacity-3 channel with the receiver waker
(identity 7) and producer waker (identity 9) both parked. -/
def c10state : ChannelState :=
  { ChannelState.new 3 with receiver_waker := some 7, senders_waker := some 9 }

/-- C10 fails on the code in one conjunct: `close` on `c10state` does
invoke the registered receiver waker and does leave the producer-waker slot
untouched with no producer woken, as claimed, but it does not set the
shared `closing` flag — the assignment applies only to the dropped local
copy. -/
theorem close_wakes_receiver_only :
    (close c10state).wakes = [7] ∧
    (close c10state).state.senders_waker = some 9 ∧
    (close c10state).state.closing = false := by
  refine ⟨by decide, by decide, by decide⟩

end Mpsc
